import Mathlib

/-!
# NetScan browser controller (`script.js`)

A shallow embedding of the scan / history controller of `script.js`.

* Values come from `JSON.parse`, so they are modelled by `JVal`, with the
  reads, truthiness test and string conversion of JavaScript.
* The page is a record `State`: the handful of DOM properties the script
  writes, plus the log of `fetch` calls, `alert` dialogs and scheduled scrolls.
* An `async` function is split at its `await`: the part run when it is called
  (`...Start`) and the part run when the request settles (`...Settle`), the
  way the request settled being a `Settlement`.
* A statement that can throw returns `Option JSError × State`: the exception,
  if any, and the page as it is at that point.
-/

namespace NetScan

/-! ## JavaScript values -/

/-- A value the script can hold: what `JSON.parse` returns, or `undefined`
(what reading an absent property gives). An object is the list of its own
properties, none of them named `toString` or `valueOf` (the backend sends
no such key). A number `num n` stands for the number of value `n`, for `n` a
safe integer (`isSafeInteger`): these a JS number holds exactly and prints as
their decimal digits. Larger integers, which a JS number rounds and prints in
another form, and fractions are outside the model; the statements that spell
out the digits of an id carry the bound. -/
inductive JVal where
  | undefined
  | null
  | bool (b : Bool)
  | num (n : Int)
  | str (s : String)
  | arr (xs : List JVal)
  | obj (kvs : List (String × JVal))

/-- An exception object; the script only ever reads its `message`. -/
structure JSError where
  message : String
deriving DecidableEq

/-- The `TypeError` of a property read on `undefined` or `null`. The wording of
the message belongs to the engine; nothing below depends on it. -/
def readError (base key : String) : JSError :=
  ⟨"Cannot read properties of " ++ base ++ " (reading " ++ key ++ ")"⟩

/-- The `TypeError` of calling something that is not a function. -/
def notAFunction (what : String) : JSError :=
  ⟨what ++ " is not a function"⟩

/-- The test `Number.isSafeInteger`: the integers `n` with `|n| ≤ 2^53 - 1`. -/
def isSafeInteger (n : Int) : Bool :=
  n.natAbs ≤ 2 ^ 53 - 1

/-- Number of UTF-16 code units of a string: the `length` of a JS string. -/
def utf16Length (s : String) : Nat :=
  (s.data.map (fun c => if c.val < 0x10000 then 1 else 2)).sum

namespace JVal

/-- `v === undefined || v === null`: the values a property read throws on. -/
def isNullish : JVal → Bool
  | undefined => true
  | null => true
  | _ => false

/-- The value of `v.key` for a `v` that is neither `undefined` nor `null`, for
the keys the script reads (`success`, `error`, `network`, `total`,
`online_hosts`, `scans`, `id`, `timestamp`, `network_cidr`, `total_hosts`,
`length`): an own property of an object, the `length` of an array or a
string, and `undefined` otherwise. -/
def prop (v : JVal) (key : String) : JVal :=
  match v with
  | str s => if key = "length" then num (utf16Length s) else undefined
  | arr xs => if key = "length" then num xs.length else undefined
  | obj kvs => (kvs.lookup key).getD undefined
  | _ => undefined

/-- The expression `v.key`: throws on `undefined` and `null`. -/
def get (v : JVal) (key : String) : Except JSError JVal :=
  match v with
  | undefined => .error (readError "undefined" key)
  | null => .error (readError "null" key)
  | _ => .ok (v.prop key)

/-- ToBoolean: the test of `if (v)` and of `v || w`. -/
def truthy : JVal → Bool
  | undefined => false
  | null => false
  | bool b => b
  | num n => n != 0
  | str s => s != ""
  | arr _ => true
  | obj _ => true

/-- The expression `a || b`. -/
def orElse (a b : JVal) : JVal := if a.truthy then a else b

/-- The expression `v === k` for a number literal `k`. -/
def strictEqNum (v : JVal) (k : Int) : Bool :=
  match v with
  | num n => n == k
  | _ => false

mutual
/-- ToString: the text a template literal or a `+` with a string puts in for
`v`. The digits of a number are those of a safe integer; the text of an object
is that of one without an own `toString` or `valueOf`. -/
def toStr : JVal → String
  | undefined => "undefined"
  | null => "null"
  | bool b => if b then "true" else "false"
  | num n => toString n
  | str s => s
  | arr xs => ",".intercalate (elemStrs xs)
  | obj _ => "[object Object]"
/-- The pieces `Array.prototype.join` puts together: `undefined` and `null`
elements give the empty string. -/
def elemStrs : List JVal → List String
  | [] => []
  | undefined :: rest => "" :: elemStrs rest
  | null :: rest => "" :: elemStrs rest
  | x :: rest => toStr x :: elemStrs rest
end

/-- What assigning `v` to `textContent` stores: `undefined` and `null` clear the
text, anything else is converted to a string. -/
def toTextContent (v : JVal) : String :=
  if v.isNullish then "" else v.toStr

end JVal

/-- The code points `String.prototype.trim` strips: WhiteSpace and
LineTerminator of the language specification. -/
def isJsWhiteSpace (c : Char) : Bool :=
  let n := c.val.toNat
  n = 0x09 || n = 0x0A || n = 0x0B || n = 0x0C || n = 0x0D || n = 0x20 ||
  n = 0xA0 || n = 0x1680 || (0x2000 ≤ n && n ≤ 0x200A) || n = 0x2028 ||
  n = 0x2029 || n = 0x202F || n = 0x205F || n = 0x3000 || n = 0xFEFF

/-- The method `String.prototype.trim`. -/
def jsTrim (s : String) : String :=
  ⟨((s.data.dropWhile isJsWhiteSpace).reverse.dropWhile isJsWhiteSpace).reverse⟩

/-! ## The page -/

/-- A child node of a container. -/
inductive Node where
  /-- What the HTML parser builds from the markup assigned to the container's
  `innerHTML`. -/
  | parsed (html : String)
  /-- A `div` made by `createElement`, with its `className`, its
  `style.animationDelay` (in hundredths of a second: the script multiplies the
  index by `0.05` or `0.1`) and the markup assigned to its `innerHTML`. -/
  | element (className : String) (delayHundredths : Nat) (innerHTML : String)
deriving DecidableEq

/-- The children of a container after `container.innerHTML = html`. -/
def setInnerHTML (html : String) : List Node :=
  if html = "" then [] else [Node.parsed html]

/-- A call of `fetch`. The body is the value handed to `JSON.stringify`. -/
structure Request where
  method : String
  url : String
  contentType : Option String
  body : Option JVal

/-- The page and the log of what the script did to the outside. -/
structure State where
  /-- The property `networkInput.value`. -/
  inputValue : String
  /-- Whether `loading` has the class `hidden`. -/
  loadingHidden : Bool
  /-- Whether `resultsPanel` has the class `hidden`. -/
  resultsHidden : Bool
  /-- The property `scanBtn.disabled`. -/
  btnDisabled : Bool
  /-- The text of the `.btn-text` element of `scanBtn`. -/
  btnText : String
  /-- The text of `scannedNetwork`. -/
  scannedNetwork : String
  /-- The text of `hostsCount`. -/
  hostsCount : String
  /-- The children of `hostsGrid`. -/
  hostsGrid : List Node
  /-- The children of the `history-list` element. -/
  historyList : List Node
  /-- The `fetch` calls made so far, oldest first. -/
  requests : List Request
  /-- The messages of the `alert` dialogs shown so far, oldest first. -/
  alerts : List String
  /-- How many scroll callbacks `setTimeout` has been given. -/
  scrolls : Nat

/-- The call `alert(msg)`. -/
def alert (msg : String) (st : State) : State :=
  { st with alerts := st.alerts ++ [msg] }

/-- The call `fetch(...)`, as far as the page can tell: one more request. -/
def fetch (r : Request) (st : State) : State :=
  { st with requests := st.requests ++ [r] }

/-- How a request settles for the code awaiting it. -/
inductive Settlement where
  /-- The promise of `fetch` rejects. -/
  | rejected (error : JSError)
  /-- The promise of `response.json()` rejects: the body is not JSON. -/
  | unparsable (error : JSError)
  /-- The promise of `response.json()` resolves to `data`. -/
  | body (data : JVal)

/-- The method `xs.forEach((x, index) => ...)` for a callback that can throw:
runs the callback on each element in turn, from index `i`, and stops at the
first exception. -/
def forEachFrom {α : Type} (f : α → Nat → State → Option JSError × State) :
    List α → Nat → State → Option JSError × State
  | [], _, st => (none, st)
  | x :: rest, i, st =>
    match f x i st with
    | (some e, st1) => (some e, st1)
    | (none, st1) => forEachFrom f rest (i + 1) st1

/-! ## Markup -/

/-- Line 78: the placeholder of an empty scan result. -/
def noHostsHtml : String :=
  "<div class=\"empty-state\"><div class=\"empty-state-icon\">🔍</div><p>No online hosts found</p></div>"

/-- Lines 84-88: the markup of a host card. -/
def hostCardHtml (host : JVal) : String :=
  "\n                <div class=\"host-icon\">💻</div>\n                <div class=\"host-ip\">"
    ++ host.toStr
    ++ "</div>\n                <div class=\"host-status\">● Online</div>\n            "

/-- Line 106: the placeholder shown while the history loads. -/
def loadingHistoryHtml : String :=
  "<div class=\"loading\"><p>Loading history...</p></div>"

/-- Line 115: the placeholder of a history load the backend refused. -/
def errorLoadingHtml : String :=
  "<div class=\"empty-state\"><div class=\"empty-state-icon\">❌</div><p>Error loading history</p></div>"

/-- Line 118: the placeholder of a history load that threw. -/
def networkErrorHtml : String :=
  "<div class=\"empty-state\"><div class=\"empty-state-icon\">❌</div><p>Network error</p></div>"

/-- Lines 126-131: the placeholder of an empty history. -/
def noHistoryHtml : String :=
  "\n            <div class=\"empty-state\">\n                <div class=\"empty-state-icon\">📊</div>\n                <p>No scan history yet. Start your first scan!</p>\n            </div>\n        "

/-- Line 143: the markup of one host chip. -/
def hostChipHtml (host : JVal) : String :=
  "<span class=\"host-chip\">" ++ host.toStr ++ "</span>"

/-- Lines 147-155: the head of a history item, up to the count line. -/
def historyHeadHtml (scan : JVal) : String :=
  "\n            <div class=\"history-header\">\n                <div>\n                    <div class=\"history-time\">📅 "
    ++ (scan.prop "timestamp").toStr
    ++ "</div>\n                    <div class=\"history-network\">🌐 "
    ++ (scan.prop "network_cidr").toStr
    ++ "</div>\n                </div>\n                <div>\n                    <button class=\"delete-btn\" onclick=\"deleteScan("
    ++ (scan.prop "id").toStr
    ++ ")\">Delete</button>\n                </div>\n            </div>\n            <div style=\"color: var(--text-secondary); margin-bottom: 0.5rem;\">\n                "

/-- Line 157: the count line of a history item. -/
def historyCountHtml (scan : JVal) : String :=
  "<strong>" ++ (scan.prop "total_hosts").toStr ++ "</strong> online host"
    ++ (if !(scan.prop "total_hosts").strictEqNum 1 then "s" else "")

/-- Lines 158-160: the tail of a history item, holding the chips. -/
def historyTailHtml (hostsChips : String) : String :=
  "\n            </div>\n            <div class=\"history-hosts\">" ++ hostsChips ++ "</div>\n        "

/-- Lines 146-160: the markup of a history item. -/
def historyItemHtml (scan : JVal) (hostsChips : String) : String :=
  historyHeadHtml scan ++ historyCountHtml scan ++ historyTailHtml hostsChips

/-! ## Scan (lines 32-99) -/

/-- The callback of lines 80-90: makes a card for `host` and appends it to
`hostsGrid`. It cannot throw. -/
def appendHostCard (host : JVal) (index : Nat) (st : State) : Option JSError × State :=
  (none, { st with hostsGrid :=
    st.hostsGrid ++ [Node.element "host-card" (index * 5) (hostCardHtml host)] })

/-- Lines 93-98: shows the results panel and schedules the scroll. -/
def showResultsPanel (st : State) : State :=
  { st with resultsHidden := false, scrolls := st.scrolls + 1 }

/-- The function `displayResults(data)` (lines 69-99). -/
def displayResults (data : JVal) (st : State) : Option JSError × State :=
  match data.get "network" with
  | .error e => (some e, st)
  | .ok network =>
    let st1 := { st with scannedNetwork := network.toTextContent }
    let st2 := { st1 with hostsCount := (data.prop "total").toTextContent }
    let st3 := { st2 with hostsGrid := setInnerHTML "" }
    match (data.prop "online_hosts").get "length" with
    | .error e => (some e, st3)
    | .ok len =>
      if len.strictEqNum 0 then
        (none, showResultsPanel { st3 with hostsGrid := setInnerHTML noHostsHtml })
      else
        match data.prop "online_hosts" with
        | .arr hosts =>
          match forEachFrom appendHostCard hosts 0 st3 with
          | (some e, st4) => (some e, st4)
          | (none, st4) => (none, showResultsPanel st4)
        | _ => (some (notAFunction "data.online_hosts.forEach"), st3)

/-- The scan request of lines 42-48, for the trimmed input `network`. -/
def scanRequest (network : String) : Request :=
  { method := "POST", url := "/api/scan", contentType := some "application/json",
    body := some (.obj [("network", (JVal.str network).orElse .null)]) }

/-- The click handler of `scanBtn` up to `await fetch(...)` (lines 33-48). -/
def scanClickStart (st : State) : State :=
  let network := jsTrim st.inputValue
  fetch (scanRequest network)
    { st with loadingHidden := false, resultsHidden := true, btnDisabled := true,
              btnText := "SCANNING..." }

/-- The `try` block of the click handler once the request has settled
(lines 42-56). -/
def scanTry (o : Settlement) (st : State) : Option JSError × State :=
  match o with
  | .rejected e => (some e, st)
  | .unparsable e => (some e, st)
  | .body data =>
    match data.get "success" with
    | .error e => (some e, st)
    | .ok success =>
      if success.truthy then displayResults data st
      else (none, alert ("Error: " ++ (data.prop "error").toStr) st)

/-- The `catch` block shared by the click handler and `deleteScan`
(lines 57-58 and 186-187). -/
def catchNetworkError (r : Option JSError × State) : State :=
  match r with
  | (some e, st) => alert ("Network error: " ++ e.message) st
  | (none, st) => st

/-- The `finally` block of the click handler (lines 59-63). -/
def scanFinally (st : State) : State :=
  { st with loadingHidden := true, btnDisabled := false, btnText := "INITIATE SCAN" }

/-- The click handler from the settlement of its request to its end
(lines 50-63). -/
def scanClickSettle (o : Settlement) (st : State) : State :=
  scanFinally (catchNetworkError (scanTry o st))

/-- The whole click handler, for a request that settles as `o`. -/
def scanClick (o : Settlement) (st : State) : State :=
  scanClickSettle o (scanClickStart st)

/-! ## History (lines 104-189) -/

/-- Lines 138-160: the item built for `scan`; `scan.online_hosts.map` throws
unless `scan.online_hosts` is an array. -/
def historyItem (scan : JVal) (index : Nat) : Except JSError Node :=
  match scan.get "online_hosts" with
  | .error e => .error e
  | .ok .undefined => .error (readError "undefined" "map")
  | .ok .null => .error (readError "null" "map")
  | .ok (.arr hosts) =>
    let hostsChips := String.join (hosts.map hostChipHtml)
    .ok (Node.element "history-item" (index * 10) (historyItemHtml scan hostsChips))
  | .ok _ => .error (notAFunction "scan.online_hosts.map")

/-- The callback of lines 137-163: builds the item and appends it to the
history list. -/
def appendHistoryItem (scan : JVal) (index : Nat) (st : State) : Option JSError × State :=
  match historyItem scan index with
  | .error e => (some e, st)
  | .ok item => (none, { st with historyList := st.historyList ++ [item] })

/-- The function `displayHistory(scans)` (lines 122-164). -/
def displayHistory (scans : JVal) (st : State) : Option JSError × State :=
  match scans.get "length" with
  | .error e => (some e, st)
  | .ok len =>
    if len.strictEqNum 0 then
      (none, { st with historyList := setInnerHTML noHistoryHtml })
    else
      let st1 := { st with historyList := setInnerHTML "" }
      match scans with
      | .arr xs => forEachFrom appendHistoryItem xs 0 st1
      | _ => (some (notAFunction "scans.forEach"), st1)

/-- The request of line 109. -/
def historyRequest : Request :=
  { method := "GET", url := "/api/history", contentType := none, body := none }

/-- The function `loadHistory()` up to `await fetch(...)` (lines 105-109). -/
def loadHistoryStart (st : State) : State :=
  fetch historyRequest { st with historyList := setInnerHTML loadingHistoryHtml }

/-- The `try` block of `loadHistory` once the request has settled
(lines 110-116). -/
def loadHistoryTry (o : Settlement) (st : State) : Option JSError × State :=
  match o with
  | .rejected e => (some e, st)
  | .unparsable e => (some e, st)
  | .body data =>
    match data.get "success" with
    | .error e => (some e, st)
    | .ok success =>
      if success.truthy then displayHistory (data.prop "scans") st
      else (none, { st with historyList := setInnerHTML errorLoadingHtml })

/-- The function `loadHistory()` from the settlement of its request to its end
(lines 110-119). -/
def loadHistorySettle (o : Settlement) (st : State) : State :=
  match loadHistoryTry o st with
  | (some _, st1) => { st1 with historyList := setInnerHTML networkErrorHtml }
  | (none, st1) => st1

/-- The whole of `loadHistory()`, for a request that settles as `o`. -/
def loadHistory (o : Settlement) (st : State) : State :=
  loadHistorySettle o (loadHistoryStart st)

/-- The request of lines 175-177. -/
def deleteRequest (scanId : JVal) : Request :=
  { method := "DELETE", url := "/api/delete/" ++ scanId.toStr, contentType := none,
    body := none }

/-- The function `deleteScan(scanId)` up to `await fetch(...)` (lines 170-177);
`confirmed` is the answer to the `confirm` dialog. The result says whether a
request is now awaited. -/
def deleteScanStart (scanId : JVal) (confirmed : Bool) (st : State) : Bool × State :=
  if !confirmed then (false, st) else (true, fetch (deleteRequest scanId) st)

/-- The `try` block of `deleteScan` once the request has settled
(lines 179-185). The call `loadHistory()` runs up to its own `await`. -/
def deleteScanTry (o : Settlement) (st : State) : Option JSError × State :=
  match o with
  | .rejected e => (some e, st)
  | .unparsable e => (some e, st)
  | .body data =>
    match data.get "success" with
    | .error e => (some e, st)
    | .ok success =>
      if success.truthy then (none, loadHistoryStart st)
      else (none, alert ("Error deleting scan: " ++ (data.prop "error").toStr) st)

/-- The function `deleteScan` from the settlement of its request to its end
(lines 179-188). -/
def deleteScanSettle (o : Settlement) (st : State) : State :=
  catchNetworkError (deleteScanTry o st)

/-- The whole of `deleteScan(scanId)`: nothing more happens when the user
declines, otherwise the request settles as `o`. -/
def deleteScan (scanId : JVal) (confirmed : Bool) (o : Settlement) (st : State) : State :=
  match deleteScanStart scanId confirmed st with
  | (false, st1) => st1
  | (true, st1) => deleteScanSettle o st1

/-! ## The scan trigger as a state machine (lines 32-64 and 194-198) -/

/-- The page together with the number of click-handler runs suspended at their
`await`, that is the number of scan requests in flight. -/
structure Sys where
  page : State
  inFlight : Nat

/-- What can happen to the scan controls. -/
inductive Event where
  /-- The user clicks `scanBtn`. -/
  | click
  /-- A `keypress` event on `networkInput` with the given `key`. -/
  | keypress (key : String)
  /-- The user edits `networkInput`. -/
  | input (value : String)
  /-- The scan request in flight settles. -/
  | settle (o : Settlement)

/-- A click reaching `scanBtn`, from the user or from `scanBtn.click()`. The
button is a form control: while `disabled` is set the browser dispatches no
click event on it and `click()` returns at once; otherwise the click handler
runs up to its `await`. -/
def dispatchClick (s : Sys) : Sys :=
  if s.page.btnDisabled then s
  else { page := scanClickStart s.page, inFlight := s.inFlight + 1 }

/-- One event of the scan controls. -/
def step (s : Sys) : Event → Sys
  | .click => dispatchClick s
  | .keypress key => if key = "Enter" then dispatchClick s else s
  | .input value => { s with page := { s.page with inputValue := value } }
  | .settle o =>
    if s.inFlight = 0 then s
    else { page := scanClickSettle o s.page, inFlight := s.inFlight - 1 }

/-- The events of a list, in order. -/
def run (s : Sys) (evs : List Event) : Sys := evs.foldl step s

/-- What the results panel shows: the part of the page `displayResults` is
about. -/
structure ResultsView where
  networkLabel : String
  count : String
  grid : List Node
  panelHidden : Bool
deriving DecidableEq

/-- The results view of a page. -/
def State.resultsView (st : State) : ResultsView :=
  { networkLabel := st.scannedNetwork, count := st.hostsCount, grid := st.hostsGrid,
    panelHidden := st.resultsHidden }

/-! ## Closed forms used in the proofs -/

/-- The cards `forEach` appends for `hosts`, the first one having index `i`. -/
def hostCardsFrom (i : Nat) (hosts : List JVal) : List Node :=
  (hosts.enumFrom i).map (fun p => Node.element "host-card" (p.1 * 5) (hostCardHtml p.2))

/-- The grid `displayResults` leaves for the array `hosts`. -/
def gridOf (hosts : List JVal) : List Node :=
  match hosts with
  | [] => [Node.parsed noHostsHtml]
  | _ => hostCardsFrom 0 hosts

/-- The chips of a record whose `online_hosts` is an array (line 142). -/
def chipsOf (scan : JVal) : String :=
  match scan.prop "online_hosts" with
  | .arr hosts => String.join (hosts.map hostChipHtml)
  | _ => ""

/-- The items `forEach` appends for records whose `online_hosts` are arrays,
the first one having index `i`. -/
def historyItemsFrom (i : Nat) (scans : List JVal) : List Node :=
  (scans.enumFrom i).map
    (fun p => Node.element "history-item" (p.1 * 10) (historyItemHtml p.2 (chipsOf p.2)))

/-! ## Sample values -/

/-- A page at rest: nothing scanned, nothing loaded. -/
def idlePage : State :=
  { inputValue := "", loadingHidden := true, resultsHidden := true, btnDisabled := false,
    btnText := "INITIATE SCAN", scannedNetwork := "", hostsCount := "", hostsGrid := [],
    historyList := [], requests := [], alerts := [], scrolls := 0 }

/-- A history record as the backend sends it. -/
def sampleRecord : JVal :=
  .obj [("id", .num 7), ("timestamp", .str "2024-01-01 10:00"),
        ("network_cidr", .str "10.0.0.0/24"), ("total_hosts", .num 1),
        ("online_hosts", .arr [.str "10.0.0.1"])]

/-- A later history record, with two hosts. -/
def sampleRecord2 : JVal :=
  .obj [("id", .num 8), ("timestamp", .str "2024-01-02 09:30"),
        ("network_cidr", .str "10.0.0.0/24"), ("total_hosts", .num 2),
        ("online_hosts", .arr [.str "10.0.0.2", .str "10.0.0.9"])]

/-- A scan result as the backend sends it. -/
def sampleResult : JVal :=
  .obj [("success", .bool true), ("network", .str "192.168.1.0/24"), ("total", .num 2),
        ("online_hosts", .arr [.str "192.168.1.1", .str "192.168.1.5"])]

/-- What holds of the scan controls from the idle state on: at most one
request is in flight, and the button is disabled exactly while one is. -/
def Sys.Guarded (s : Sys) : Prop :=
  s.inFlight ≤ 1 ∧ (s.inFlight = 1 ↔ s.page.btnDisabled = true)

/-! # Proofs -/

/-! ## Reads -/

theorem JVal.get_of_isNullish_false {v : JVal} (h : v.isNullish = false) (key : String) :
    v.get key = .ok (v.prop key) := by
  cases v <;> simp_all [JVal.get, JVal.isNullish]

theorem JVal.isNullish_of_get_ok {v w : JVal} {key : String} (h : v.get key = .ok w) :
    v.isNullish = false := by
  cases v <;> simp_all [JVal.get, JVal.isNullish]

theorem JVal.prop_of_get_ok {v w : JVal} {key : String} (h : v.get key = .ok w) :
    v.prop key = w := by
  have hn := JVal.isNullish_of_get_ok h
  rw [JVal.get_of_isNullish_false hn] at h
  exact Except.ok.inj h

theorem JVal.get_of_get_ok {v w : JVal} {key : String} (h : v.get key = .ok w) (key2 : String) :
    v.get key2 = .ok (v.prop key2) :=
  JVal.get_of_isNullish_false (JVal.isNullish_of_get_ok h) key2

/-! ## The host grid -/

theorem forEachFrom_appendHostCard (hosts : List JVal) (i : Nat) (st : State) :
    forEachFrom appendHostCard hosts i st
      = (none, { st with hostsGrid := st.hostsGrid ++ hostCardsFrom i hosts }) := by
  induction hosts generalizing i st with
  | nil => simp [forEachFrom, hostCardsFrom]
  | cons h rest ih =>
    simp [forEachFrom, appendHostCard, ih, hostCardsFrom, List.enumFrom]

theorem displayResults_of_array {data : JVal} {hosts : List JVal}
    (h : data.get "online_hosts" = .ok (.arr hosts)) (st : State) :
    displayResults data st
      = (none, showResultsPanel
          { st with scannedNetwork := (data.prop "network").toTextContent,
                    hostsCount := (data.prop "total").toTextContent,
                    hostsGrid := gridOf hosts }) := by
  have hp := JVal.prop_of_get_ok h
  have hn := JVal.get_of_get_ok h "network"
  unfold displayResults
  rw [hn, hp]
  cases hosts with
  | nil => simp [JVal.get, JVal.prop, JVal.strictEqNum, setInnerHTML, noHostsHtml, gridOf]
  | cons x xs =>
    have : ((xs.length : Int) + 1 == 0) = false := by
      simp; omega
    simp [JVal.get, JVal.prop, JVal.strictEqNum, forEachFrom_appendHostCard, setInnerHTML, gridOf, this]

/-- Whatever `data` is and however it ends, `displayResults` writes only the
results view and the scroll count. -/
theorem displayResults_shape (data : JVal) (st : State) :
    ∃ net cnt grid hid scr, (displayResults data st).2
      = { st with scannedNetwork := net, hostsCount := cnt, hostsGrid := grid,
                  resultsHidden := hid, scrolls := scr } := by
  unfold displayResults
  split
  · exact ⟨_, _, _, _, _, rfl⟩
  · split
    · exact ⟨_, _, _, _, _, rfl⟩
    · split
      · exact ⟨_, _, _, _, _, rfl⟩
      · split
        · simp only [forEachFrom_appendHostCard, showResultsPanel]
          exact ⟨_, _, _, _, _, rfl⟩
        · exact ⟨_, _, _, _, _, rfl⟩

theorem displayResults_requests (data : JVal) (st : State) :
    (displayResults data st).2.requests = st.requests := by
  obtain ⟨_, _, _, _, _, h⟩ := displayResults_shape data st
  rw [h]

theorem scanTry_requests (o : Settlement) (st : State) :
    (scanTry o st).2.requests = st.requests := by
  unfold scanTry
  split
  · rfl
  · rfl
  · split
    · rfl
    · split
      · exact displayResults_requests _ _
      · rfl

theorem catchNetworkError_requests (r : Option JSError × State) :
    (catchNetworkError r).requests = r.2.requests := by
  rcases r with ⟨_ | e, st⟩ <;> rfl

theorem scanClickSettle_requests (o : Settlement) (st : State) :
    (scanClickSettle o st).requests = st.requests := by
  simp [scanClickSettle, scanFinally, catchNetworkError_requests, scanTry_requests]

/-! ## Trimming -/

theorem dropWhile_eq_nil_iff_all {α : Type} (p : α → Bool) (l : List α) :
    l.dropWhile p = [] ↔ ∀ x ∈ l, p x = true := by
  induction l with
  | nil => simp
  | cons a l ih =>
    by_cases ha : p a = true
    · simp [List.dropWhile, ha, ih]
    · simp [List.dropWhile, ha]

theorem all_of_all_dropWhile {α : Type} (p : α → Bool) (l : List α)
    (h : ∀ x ∈ l.dropWhile p, p x = true) : ∀ x ∈ l, p x = true := by
  induction l with
  | nil => simp
  | cons a l ih =>
    by_cases ha : p a = true
    · simp only [List.dropWhile, ha] at h
      intro x hx
      rcases List.mem_cons.mp hx with rfl | hx2
      · exact ha
      · exact ih h x hx2
    · simp only [List.dropWhile, ha] at h
      exact h

theorem jsTrim_eq_empty_iff (s : String) :
    jsTrim s = "" ↔ ∀ c ∈ s.data, isJsWhiteSpace c = true := by
  unfold jsTrim
  constructor
  · intro h
    have h1 : ((s.data.dropWhile isJsWhiteSpace).reverse.dropWhile isJsWhiteSpace).reverse = [] := by
      have := congrArg String.data h
      simpa using this
    rw [List.reverse_eq_nil_iff, dropWhile_eq_nil_iff_all] at h1
    apply all_of_all_dropWhile
    intro x hx
    exact h1 x (List.mem_reverse.mpr hx)
  · intro h
    have h0 : s.data.dropWhile isJsWhiteSpace = [] := (dropWhile_eq_nil_iff_all _ _).mpr h
    simp [h0]

theorem hostCardsFrom_length (i : Nat) (hosts : List JVal) :
    (hostCardsFrom i hosts).length = hosts.length := by
  simp [hostCardsFrom]

theorem hostCardsFrom_getElem? (i k : Nat) (hosts : List JVal) :
    (hostCardsFrom i hosts)[k]?
      = (hosts[k]?).map (fun h => Node.element "host-card" ((i + k) * 5) (hostCardHtml h)) := by
  simp only [hostCardsFrom, List.getElem?_map, List.getElem?_enumFrom]
  cases hosts[k]? <;> rfl

/-! ## The claims -/

/-- C1. However the scan request settles (a body of any shape, hence with
`success` true or false or a result that makes the renderer throw; a rejected
`fetch`; a body that is not JSON), and whatever the input and the page were,
when the click handler ends the button is enabled, its label is
`INITIATE SCAN` and the loading indicator is hidden. -/
theorem scanClick_restores_idle (raw : String) (st : State) (o : Settlement) :
    (scanClick o { st with inputValue := raw }).btnDisabled = false
      ∧ (scanClick o { st with inputValue := raw }).btnText = "INITIATE SCAN"
      ∧ (scanClick o { st with inputValue := raw }).loadingHidden = true := by
  simp [scanClick, scanClickSettle, scanFinally]

/-- An instance of C1 where the renderer throws: the response says `success`
but carries no `online_hosts`; the handler shows one `Network error` dialog
with the message of the exception and ends idle, the panel hidden. -/
theorem scanClick_render_throws :
    (∃ e : JSError,
        (scanClick (.body (.obj [("success", .bool true), ("network", .str "10.0.0.0/24")]))
          idlePage).alerts = ["Network error: " ++ e.message])
      ∧ (scanClick (.body (.obj [("success", .bool true), ("network", .str "10.0.0.0/24")]))
          idlePage).btnDisabled = false
      ∧ (scanClick (.body (.obj [("success", .bool true), ("network", .str "10.0.0.0/24")]))
          idlePage).resultsHidden = true :=
  ⟨⟨readError "undefined" "length", by decide⟩, by decide, by decide⟩

/-- C3. One run of the click handler issues exactly one request, at its start
and none later; it is the `POST` to `/api/scan` whose body carries `network`
equal to `null` when the trimmed input is empty, which is the case exactly
when every character of the input is white space, and equal to the trimmed
input otherwise. -/
theorem scanClick_request (raw : String) (st : State) (o : Settlement) :
    (scanClick o { st with inputValue := raw }).requests
        = st.requests ++
          [{ method := "POST", url := "/api/scan", contentType := some "application/json",
             body := some (.obj [("network",
               if jsTrim raw = "" then JVal.null else JVal.str (jsTrim raw))]) }]
      ∧ (scanClickStart { st with inputValue := raw }).requests
          = (scanClick o { st with inputValue := raw }).requests
      ∧ (jsTrim raw = "" ↔ ∀ c ∈ raw.data, isJsWhiteSpace c = true)
      ∧ jsTrim "" = "" ∧ jsTrim " \t\n" = ""
      ∧ jsTrim "192.168.1.0/24" = "192.168.1.0/24"
      ∧ jsTrim "  10.0.0.0/8 \n" = "10.0.0.0/8" := by
  refine ⟨?_, ?_, jsTrim_eq_empty_iff raw, by decide, by decide, by decide, by decide⟩
  · rw [scanClick, scanClickSettle_requests]
    simp only [scanClickStart, fetch, scanRequest, JVal.orElse, JVal.truthy]
    by_cases h : jsTrim raw = "" <;> simp [h]
  · rw [scanClick, scanClickSettle_requests]

/-- C4. When the response has `success` equal to `false` and carries the error
message `msg`, then whatever the page showed before, at the end of the click
handler the results panel is hidden, the network label, the count, the host
grid and the number of scheduled scrolls are what they were (the renderer did
not run), and exactly one dialog was added, with the text `Error: ` followed
by `msg`. -/
theorem scanClick_app_error (data : JVal) (msg : String) (st : State)
    (hs : data.get "success" = .ok (.bool false))
    (he : data.prop "error" = .str msg) :
    (scanClick (.body data) st).resultsHidden = true
      ∧ (scanClick (.body data) st).hostsGrid = st.hostsGrid
      ∧ (scanClick (.body data) st).scannedNetwork = st.scannedNetwork
      ∧ (scanClick (.body data) st).hostsCount = st.hostsCount
      ∧ (scanClick (.body data) st).scrolls = st.scrolls
      ∧ (scanClick (.body data) st).alerts = st.alerts ++ ["Error: " ++ msg] := by
  simp [scanClick, scanClickSettle, scanFinally, scanTry, hs, he, JVal.truthy,
    catchNetworkError, alert, scanClickStart, fetch, JVal.toStr]

/-- Witness for C4: a refused scan on a page that shows an earlier result. -/
theorem scanClick_app_error_witness :
    (JVal.obj [("success", .bool false), ("error", .str "bad range")]).get "success"
        = .ok (.bool false)
      ∧ (scanClick (.body (.obj [("success", .bool false), ("error", .str "bad range")]))
          (displayResults sampleResult idlePage).2).resultsHidden = true
      ∧ (scanClick (.body (.obj [("success", .bool false), ("error", .str "bad range")]))
          (displayResults sampleResult idlePage).2).hostsGrid
            = (displayResults sampleResult idlePage).2.hostsGrid
      ∧ (scanClick (.body (.obj [("success", .bool false), ("error", .str "bad range")]))
          (displayResults sampleResult idlePage).2).alerts = ["Error: bad range"] :=
  ⟨rfl,
   (scanClick_app_error (.obj [("success", .bool false), ("error", .str "bad range")])
      "bad range" (displayResults sampleResult idlePage).2 rfl rfl).1,
   (scanClick_app_error (.obj [("success", .bool false), ("error", .str "bad range")])
      "bad range" (displayResults sampleResult idlePage).2 rfl rfl).2.1,
   (scanClick_app_error (.obj [("success", .bool false), ("error", .str "bad range")])
      "bad range" (displayResults sampleResult idlePage).2 rfl rfl).2.2.2.2.2⟩

/-- C5. For a result whose `online_hosts` is the array of strings `hosts`,
`displayResults` ends normally and leaves in the host grid: the empty-state
placeholder alone when `hosts` is empty; otherwise exactly `hosts.length`
children, the `i`-th one being the `host-card` whose markup holds the `i`-th
string of `hosts` as it is, whatever the grid held before. The animation
delay is a field of the card and plays no part in which cards there are. -/
theorem displayResults_grid (data : JVal) (hosts : List String) (st : State)
    (h : data.get "online_hosts" = .ok (.arr (hosts.map .str))) :
    (displayResults data st).1 = none
      ∧ (hosts = [] → (displayResults data st).2.hostsGrid = [Node.parsed noHostsHtml])
      ∧ (hosts ≠ [] →
          (displayResults data st).2.hostsGrid.length = hosts.length
          ∧ ∀ (i : Nat) (hi : i < hosts.length),
              (displayResults data st).2.hostsGrid[i]?
                = some (Node.element "host-card" (i * 5)
                    ("\n                <div class=\"host-icon\">💻</div>\n                <div class=\"host-ip\">"
                      ++ hosts[i]
                      ++ "</div>\n                <div class=\"host-status\">● Online</div>\n            "))) := by
  rw [displayResults_of_array h]
  refine ⟨rfl, ?_, ?_⟩
  · intro he
    subst he
    rfl
  · intro hne
    have hg : gridOf (hosts.map JVal.str) = hostCardsFrom 0 (hosts.map JVal.str) := by
      cases hosts with
      | nil => exact absurd rfl hne
      | cons a l => rfl
    simp only [showResultsPanel, hg]
    refine ⟨by simp [hostCardsFrom_length], ?_⟩
    intro i hi
    rw [hostCardsFrom_getElem?]
    simp [List.getElem?_map, List.getElem?_eq_getElem hi, hostCardHtml, JVal.toStr]

/-- Witness for C5: the two hosts of the sample result. -/
theorem displayResults_grid_witness :
    sampleResult.get "online_hosts"
        = .ok (.arr (["192.168.1.1", "192.168.1.5"].map .str))
      ∧ (displayResults sampleResult idlePage).2.hostsGrid.length = 2
      ∧ (displayResults sampleResult idlePage).2.hostsGrid[1]?
          = some (Node.element "host-card" 5
              "\n                <div class=\"host-icon\">💻</div>\n                <div class=\"host-ip\">192.168.1.5</div>\n                <div class=\"host-status\">● Online</div>\n            ") :=
  ⟨rfl,
   ((displayResults_grid sampleResult ["192.168.1.1", "192.168.1.5"] idlePage rfl).2.2
      (by simp)).1,
   ((displayResults_grid sampleResult ["192.168.1.1", "192.168.1.5"] idlePage rfl).2.2
      (by simp)).2 1 (by simp)⟩

/-- C9. For a result whose `online_hosts` is an array, `displayResults` ends
normally and the results view it leaves (network label, count, host grid,
panel visibility) is the same whatever the page was before. Hence rendering
the same result a second time changes nothing in the view, and rendering it
after any other data leaves the view it leaves on its own: nothing of the
earlier rendering stays in the grid. -/
theorem displayResults_view_independent (data : JVal) (hosts : List JVal)
    (h : data.get "online_hosts" = .ok (.arr hosts)) :
    (∀ s : State, (displayResults data s).1 = none)
      ∧ (∀ s s2 : State,
          (displayResults data s).2.resultsView = (displayResults data s2).2.resultsView)
      ∧ (∀ s : State,
          (displayResults data (displayResults data s).2).2.resultsView
            = (displayResults data s).2.resultsView)
      ∧ (∀ (other : JVal) (s : State),
          (displayResults data (displayResults other s).2).2.resultsView
            = (displayResults data s).2.resultsView)
      ∧ (∀ s : State, (displayResults data s).2.resultsView
            = { networkLabel := (data.prop "network").toTextContent,
                count := (data.prop "total").toTextContent,
                grid := gridOf hosts, panelHidden := false }) := by
  have key : ∀ s : State, (displayResults data s).2.resultsView
      = { networkLabel := (data.prop "network").toTextContent,
          count := (data.prop "total").toTextContent,
          grid := gridOf hosts, panelHidden := false } := by
    intro s
    rw [displayResults_of_array h]
    rfl
  refine ⟨fun s => by rw [displayResults_of_array h], ?_, ?_, ?_, key⟩
  · intro s s2
    rw [key, key]
  · intro s
    rw [key, key]
  · intro other s
    rw [key, key]

/-- Witness for C9: the sample result rendered twice, and rendered over a
result with other hosts. -/
theorem displayResults_view_independent_witness :
    sampleResult.get "online_hosts" = .ok (.arr [.str "192.168.1.1", .str "192.168.1.5"])
      ∧ (displayResults sampleResult (displayResults sampleResult idlePage).2).2.resultsView
          = (displayResults sampleResult idlePage).2.resultsView
      ∧ (displayResults sampleResult
          (displayResults (.obj [("online_hosts", .arr [.str "10.9.9.9"])]) idlePage).2).2.resultsView
          = (displayResults sampleResult idlePage).2.resultsView :=
  ⟨rfl,
   (displayResults_view_independent sampleResult _ rfl).2.2.1 idlePage,
   (displayResults_view_independent sampleResult _ rfl).2.2.2.1
     (.obj [("online_hosts", .arr [.str "10.9.9.9"])]) idlePage⟩

/-! ## The history list -/

theorem historyItem_of_array {scan : JVal} {hosts : List JVal}
    (h : scan.get "online_hosts" = .ok (.arr hosts)) (index : Nat) :
    historyItem scan index
      = .ok (Node.element "history-item" (index * 10)
          (historyItemHtml scan (String.join (hosts.map hostChipHtml)))) := by
  simp [historyItem, h]

theorem chipsOf_of_array {scan : JVal} {hosts : List JVal}
    (h : scan.get "online_hosts" = .ok (.arr hosts)) :
    chipsOf scan = String.join (hosts.map hostChipHtml) := by
  simp [chipsOf, JVal.prop_of_get_ok h]

theorem forEachFrom_appendHistoryItem (scans : List JVal) (i : Nat) (st : State)
    (hrec : ∀ scan ∈ scans, ∃ hosts : List JVal, scan.get "online_hosts" = .ok (.arr hosts)) :
    forEachFrom appendHistoryItem scans i st
      = (none, { st with historyList := st.historyList ++ historyItemsFrom i scans }) := by
  induction scans generalizing i st with
  | nil => simp [forEachFrom, historyItemsFrom]
  | cons x rest ih =>
    obtain ⟨hosts, hx⟩ := hrec x (List.mem_cons_self _ _)
    have hr : ∀ scan ∈ rest, ∃ hosts : List JVal, scan.get "online_hosts" = .ok (.arr hosts) :=
      fun scan hs => hrec scan (List.mem_cons_of_mem _ hs)
    simp [forEachFrom, appendHistoryItem, historyItem_of_array hx, ih _ _ hr, historyItemsFrom,
      List.enumFrom, chipsOf_of_array hx]

theorem forEachFrom_appendHistoryItem_shape (scans : List JVal) (i : Nat) (st : State) :
    ∃ list, (forEachFrom appendHistoryItem scans i st).2 = { st with historyList := list } := by
  induction scans generalizing i st with
  | nil => exact ⟨st.historyList, rfl⟩
  | cons x rest ih =>
    unfold forEachFrom appendHistoryItem
    cases historyItem x i with
    | error e => exact ⟨st.historyList, rfl⟩
    | ok item =>
      obtain ⟨list, hl⟩ := ih (i + 1) { st with historyList := st.historyList ++ [item] }
      exact ⟨list, by simpa using hl⟩

/-- Whatever `scans` is and however it ends, `displayHistory` writes only the
history list. -/
theorem displayHistory_shape (scans : JVal) (st : State) :
    ∃ list, (displayHistory scans st).2 = { st with historyList := list } := by
  unfold displayHistory
  split
  · exact ⟨st.historyList, rfl⟩
  · split
    · exact ⟨_, rfl⟩
    · split
      · rename_i xs _
        obtain ⟨list, hl⟩ := forEachFrom_appendHistoryItem_shape xs 0
          { st with historyList := setInnerHTML "" }
        exact ⟨list, by simpa using hl⟩
      · exact ⟨_, rfl⟩

theorem loadHistoryTry_shape (o : Settlement) (st : State) :
    ∃ list, (loadHistoryTry o st).2 = { st with historyList := list } := by
  unfold loadHistoryTry
  split
  · exact ⟨st.historyList, rfl⟩
  · exact ⟨st.historyList, rfl⟩
  · split
    · exact ⟨st.historyList, rfl⟩
    · split
      · exact displayHistory_shape _ _
      · exact ⟨_, rfl⟩

theorem loadHistorySettle_shape (o : Settlement) (st : State) :
    ∃ list, loadHistorySettle o st = { st with historyList := list } := by
  obtain ⟨list, hl⟩ := loadHistoryTry_shape o st
  unfold loadHistorySettle
  rcases hr : loadHistoryTry o st with ⟨_ | e, st1⟩
  · rw [hr] at hl
    exact ⟨list, hl⟩
  · rw [hr] at hl
    simp only at hl
    exact ⟨setInnerHTML networkErrorHtml, by simp [hl]⟩

theorem loadHistorySettle_of_throw {o : Settlement} {st : State} {e : JSError}
    (h : (loadHistoryTry o st).1 = some e) :
    (loadHistorySettle o st).historyList = [Node.parsed networkErrorHtml] := by
  unfold loadHistorySettle
  rcases hr : loadHistoryTry o st with ⟨_ | e2, st1⟩
  · rw [hr] at h
    cases h
  · rfl

theorem historyItemsFrom_length (i : Nat) (scans : List JVal) :
    (historyItemsFrom i scans).length = scans.length := by
  simp [historyItemsFrom]

theorem historyItemsFrom_getElem? (i k : Nat) (scans : List JVal) :
    (historyItemsFrom i scans)[k]?
      = (scans[k]?).map (fun scan =>
          Node.element "history-item" ((i + k) * 10) (historyItemHtml scan (chipsOf scan))) := by
  simp only [historyItemsFrom, List.getElem?_map, List.getElem?_enumFrom]
  cases scans[k]? <;> rfl

theorem displayHistory_of_records {scans : List JVal} (hne : scans ≠ [])
    (hrec : ∀ scan ∈ scans, ∃ hosts : List JVal, scan.get "online_hosts" = .ok (.arr hosts))
    (st : State) :
    displayHistory (.arr scans) st
      = (none, { st with historyList := historyItemsFrom 0 scans }) := by
  unfold displayHistory
  cases scans with
  | nil => exact absurd rfl hne
  | cons x xs =>
    have : ((xs.length : Int) + 1 == 0) = false := by
      simp; omega
    simp [JVal.get, JVal.prop, JVal.strictEqNum, this, forEachFrom_appendHistoryItem _ _ _ hrec,
      setInnerHTML]

/-- C7. A history load that fails leaves exactly one placeholder in the
history list and no item. When the `try` block throws, which covers a rejected
`fetch`, a body that is not JSON and an exception raised at any point of the
rendering, the list holds the `Network error` placeholder alone. When the
response has a falsy `success`, it holds the `Error loading history`
placeholder alone. The two placeholders differ, and both differ from the
placeholder a successful load of an empty list leaves. -/
theorem loadHistory_failure (st : State) :
    (∀ e, (loadHistory (.rejected e) st).historyList = [Node.parsed networkErrorHtml])
      ∧ (∀ e, (loadHistory (.unparsable e) st).historyList = [Node.parsed networkErrorHtml])
      ∧ (∀ data e, (loadHistoryTry (.body data) (loadHistoryStart st)).1 = some e →
          (loadHistory (.body data) st).historyList = [Node.parsed networkErrorHtml])
      ∧ (∀ data success, data.get "success" = .ok success → success.truthy = false →
          (loadHistory (.body data) st).historyList = [Node.parsed errorLoadingHtml])
      ∧ (∀ data, data.get "success" = .ok (.bool true) → data.prop "scans" = .arr [] →
          (loadHistory (.body data) st).historyList = [Node.parsed noHistoryHtml])
      ∧ errorLoadingHtml ≠ networkErrorHtml
      ∧ errorLoadingHtml ≠ noHistoryHtml
      ∧ networkErrorHtml ≠ noHistoryHtml := by
  refine ⟨fun e => ?_, fun e => ?_, fun data e h => ?_, fun data success hs ht => ?_,
    fun data hs hsc => ?_, by decide, by decide, by decide⟩
  · exact loadHistorySettle_of_throw (e := e) rfl
  · exact loadHistorySettle_of_throw (e := e) rfl
  · exact loadHistorySettle_of_throw h
  · simp [loadHistory, loadHistorySettle, loadHistoryTry, hs, ht, setInnerHTML, errorLoadingHtml]
  · have hd : ∀ s : State, displayHistory (.arr []) s
        = (none, { s with historyList := [Node.parsed noHistoryHtml] }) := by
      intro s
      simp [displayHistory, JVal.get, JVal.prop, JVal.strictEqNum, setInnerHTML, noHistoryHtml]
    simp [loadHistory, loadHistorySettle, loadHistoryTry, hs, hsc, JVal.truthy, hd]

/-- Witness for C7: a load whose second record is `null` throws after the first
item has been appended, and ends with the `Network error` placeholder alone;
a load answered `success: false, error: "db locked"` ends with the
`Error loading history` placeholder alone. -/
theorem loadHistory_failure_witness :
    (loadHistoryTry
        (.body (.obj [("success", .bool true), ("scans", .arr [sampleRecord, .null])]))
        (loadHistoryStart idlePage)).1
      = some (readError "null" "online_hosts")
    ∧ (loadHistoryTry
        (.body (.obj [("success", .bool true), ("scans", .arr [sampleRecord, .null])]))
        (loadHistoryStart idlePage)).2.historyList.length = 1
    ∧ (loadHistory
        (.body (.obj [("success", .bool true), ("scans", .arr [sampleRecord, .null])]))
        idlePage).historyList = [Node.parsed networkErrorHtml]
    ∧ (loadHistory (.body (.obj [("success", .bool false), ("error", .str "db locked")]))
        idlePage).historyList = [Node.parsed errorLoadingHtml]
    ∧ (loadHistory (.body (.obj [("success", .bool true), ("scans", .arr [])]))
        idlePage).historyList = [Node.parsed noHistoryHtml] :=
  ⟨by rfl, by rfl,
   (loadHistory_failure idlePage).2.2.1 _ (readError "null" "online_hosts") (by rfl),
   (loadHistory_failure idlePage).2.2.2.1 _ (.bool false) (by rfl) (by rfl),
   (loadHistory_failure idlePage).2.2.2.2.1 _ (by rfl) (by rfl)⟩

/-- C8. For a non-empty array `scans` of records whose `online_hosts` are
arrays of strings, `displayHistory` ends normally and leaves in the history
list exactly one item per record: as many items as records, and for a record
at index `i` with timestamp `ts`, range `cidr`, safe integer id `id`, safe
integer count `total` and hosts `hosts`, the `i`-th item is the
`history-item` whose markup is the text of lines 146-160 with `ts`, `cidr`,
`id` and `total` filled in and, in the hosts block, one `host-chip` span per
host, each holding its host string, in the order of `hosts`. A successful
load renders the records it was sent in this way. -/
theorem displayHistory_items (scans : List JVal) (st : State) (hne : scans ≠ [])
    (hrec : ∀ scan ∈ scans, ∃ hosts : List String,
      scan.get "online_hosts" = .ok (.arr (hosts.map .str))) :
    (displayHistory (.arr scans) st).1 = none
      ∧ (displayHistory (.arr scans) st).2.historyList.length = scans.length
      ∧ (∀ (i : Nat) (hi : i < scans.length) (ts cidr : String) (id total : Int)
            (hosts : List String),
          scans[i].prop "timestamp" = .str ts →
          scans[i].prop "network_cidr" = .str cidr →
          scans[i].prop "id" = .num id → isSafeInteger id = true →
          scans[i].prop "total_hosts" = .num total → isSafeInteger total = true →
          scans[i].prop "online_hosts" = .arr (hosts.map .str) →
          (displayHistory (.arr scans) st).2.historyList[i]?
            = some (Node.element "history-item" (i * 10)
                ("\n            <div class=\"history-header\">\n                <div>\n                    <div class=\"history-time\">📅 "
                  ++ ts
                  ++ "</div>\n                    <div class=\"history-network\">🌐 "
                  ++ cidr
                  ++ "</div>\n                </div>\n                <div>\n                    <button class=\"delete-btn\" onclick=\"deleteScan("
                  ++ toString id
                  ++ ")\">Delete</button>\n                </div>\n            </div>\n            <div style=\"color: var(--text-secondary); margin-bottom: 0.5rem;\">\n                <strong>"
                  ++ toString total
                  ++ "</strong> online host"
                  ++ (if total = 1 then "" else "s")
                  ++ "\n            </div>\n            <div class=\"history-hosts\">"
                  ++ String.join
                      (hosts.map (fun h => "<span class=\"host-chip\">" ++ h ++ "</span>"))
                  ++ "</div>\n        ")))
      ∧ (∀ data, data.get "success" = .ok (.bool true) → data.prop "scans" = .arr scans →
          (loadHistory (.body data) st).historyList
            = (displayHistory (.arr scans) st).2.historyList) := by
  have hrec2 : ∀ scan ∈ scans, ∃ hosts : List JVal,
      scan.get "online_hosts" = .ok (.arr hosts) := by
    intro scan hs
    obtain ⟨hosts, hh⟩ := hrec scan hs
    exact ⟨_, hh⟩
  have hd := fun s => displayHistory_of_records hne hrec2 s
  refine ⟨by rw [hd], by rw [hd]; simp [historyItemsFrom_length], ?_, ?_⟩
  · intro i hi ts cidr id total hosts hts hcidr hid _ htotal _ hhosts
    rw [hd]
    have hch : chipsOf scans[i]
        = String.join (hosts.map (fun h => "<span class=\"host-chip\">" ++ h ++ "</span>")) := by
      rw [chipsOf, hhosts]
      simp only [List.map_map]
      rfl
    have hs : (if (!(JVal.num total).strictEqNum 1) = true then "s" else "")
        = (if total = 1 then "" else "s") := by
      by_cases h1 : total = 1 <;> simp [JVal.strictEqNum, h1]
    have hlit : ")\">Delete</button>\n                </div>\n            </div>\n            <div style=\"color: var(--text-secondary); margin-bottom: 0.5rem;\">\n                <strong>"
        = ")\">Delete</button>\n                </div>\n            </div>\n            <div style=\"color: var(--text-secondary); margin-bottom: 0.5rem;\">\n                "
          ++ "<strong>" := rfl
    rw [hlit]
    simp only [historyItemsFrom_getElem?, List.getElem?_eq_getElem hi, Option.map_some',
      Nat.zero_add, hch, historyItemHtml, historyHeadHtml, historyCountHtml, historyTailHtml,
      hts, hcidr, hid, htotal, JVal.toStr, hs, String.append_assoc]
  · intro data hs hsc
    simp [loadHistory, loadHistorySettle, loadHistoryTry, hs, hsc, JVal.truthy, hd]

set_option maxRecDepth 100000 in
/-- Witness for C8: the sample record followed by a record with two hosts; the
second item carries the second record and its two chips, in order. -/
theorem displayHistory_items_witness :
    (displayHistory (.arr [sampleRecord, sampleRecord2]) idlePage).1 = none
      ∧ (displayHistory (.arr [sampleRecord, sampleRecord2]) idlePage).2.historyList.length = 2
      ∧ (displayHistory (.arr [sampleRecord, sampleRecord2]) idlePage).2.historyList[1]?
          = some (Node.element "history-item" 10
              "\n            <div class=\"history-header\">\n                <div>\n                    <div class=\"history-time\">📅 2024-01-02 09:30</div>\n                    <div class=\"history-network\">🌐 10.0.0.0/24</div>\n                </div>\n                <div>\n                    <button class=\"delete-btn\" onclick=\"deleteScan(8)\">Delete</button>\n                </div>\n            </div>\n            <div style=\"color: var(--text-secondary); margin-bottom: 0.5rem;\">\n                <strong>2</strong> online hosts\n            </div>\n            <div class=\"history-hosts\"><span class=\"host-chip\">10.0.0.2</span><span class=\"host-chip\">10.0.0.9</span></div>\n        ") :=
  have hrec : ∀ scan ∈ [sampleRecord, sampleRecord2], ∃ hosts : List String,
      scan.get "online_hosts" = .ok (.arr (hosts.map .str)) := by
    intro scan hs
    simp only [List.mem_cons, List.mem_singleton, List.not_mem_nil, or_false] at hs
    rcases hs with rfl | rfl
    · exact ⟨["10.0.0.1"], rfl⟩
    · exact ⟨["10.0.0.2", "10.0.0.9"], rfl⟩
  ⟨(displayHistory_items [sampleRecord, sampleRecord2] idlePage (by simp) hrec).1,
   (displayHistory_items [sampleRecord, sampleRecord2] idlePage (by simp) hrec).2.1,
   (displayHistory_items [sampleRecord, sampleRecord2] idlePage (by simp) hrec).2.2.1
      1 (by simp) "2024-01-02 09:30" "10.0.0.0/24" 8 2 ["10.0.0.2", "10.0.0.9"]
      rfl rfl rfl (by decide) rfl (by decide) rfl⟩

/-- C10. For a record whose `total_hosts` is the integer `n`, the count line
of its item is the number `n`, then ` online host`, then `s` unless `n = 1`;
what follows the count line in the item starts with a line break, so nothing
else is appended to the word. -/
theorem historyItem_count (scan : JVal) (n : Int) (hosts : List JVal) (index : Nat)
    (hh : scan.get "online_hosts" = .ok (.arr hosts))
    (hn : scan.prop "total_hosts" = .num n) :
    historyItem scan index
        = .ok (Node.element "history-item" (index * 10)
            (historyHeadHtml scan
              ++ ("<strong>" ++ toString n ++ "</strong> online host"
                    ++ (if n = 1 then "" else "s"))
              ++ historyTailHtml (String.join (hosts.map hostChipHtml))))
      ∧ (n = 1 → historyCountHtml scan = "<strong>1</strong> online host")
      ∧ (n ≠ 1 → historyCountHtml scan = "<strong>" ++ toString n ++ "</strong> online hosts")
      ∧ ∀ chips, (historyTailHtml chips).data.head? = some '\n' := by
  have hc : historyCountHtml scan
      = "<strong>" ++ toString n ++ "</strong> online host" ++ (if n = 1 then "" else "s") := by
    simp only [historyCountHtml, hn, JVal.toStr, JVal.strictEqNum]
    by_cases h1 : n = 1 <;> simp [h1]
  refine ⟨?_, ?_, ?_, ?_⟩
  · rw [historyItem_of_array hh, historyItemHtml, hc]
  · intro h1
    subst h1
    rw [hc]
    rfl
  · intro h1
    rw [hc]
    simp [h1, String.append_assoc]
  · intro chips
    rfl

/-- Witness for C10: the sample record has one host. -/
theorem historyItem_count_witness :
    historyCountHtml sampleRecord = "<strong>1</strong> online host" :=
  (historyItem_count sampleRecord 1 [.str "10.0.0.1"] 0 rfl rfl).2.1 rfl

/-- C6. For the scan whose id is the safe integer `n` (an id a JS number holds
exactly and prints as its digits): when the user declines, `deleteScan`
leaves the page and the request log as they were. When the user confirms, it
issues exactly one `DELETE` to `/api/delete/n`; if the response has a truthy
`success` this is followed by exactly one `GET` of `/api/history` (and the
load that follows issues no request of its own), with no dialog; if the
response has a falsy `success`, or `fetch` rejects, or the body is not JSON,
no other request is issued, the history list is what it was, and one dialog
is added. -/
theorem deleteScan_effects (n : Int) (_hn : isSafeInteger n = true) (st : State) :
    (∀ o, deleteScan (.num n) false o st = st)
      ∧ (∀ data success, data.get "success" = .ok success → success.truthy = true →
          (deleteScan (.num n) true (.body data) st).requests
              = st.requests ++
                [{ method := "DELETE", url := "/api/delete/" ++ toString n,
                   contentType := none, body := none },
                 { method := "GET", url := "/api/history", contentType := none, body := none }]
            ∧ (deleteScan (.num n) true (.body data) st).alerts = st.alerts
            ∧ ∀ o2, (loadHistorySettle o2 (deleteScan (.num n) true (.body data) st)).requests
                = (deleteScan (.num n) true (.body data) st).requests)
      ∧ (∀ data success, data.get "success" = .ok success → success.truthy = false →
          (deleteScan (.num n) true (.body data) st).requests
              = st.requests ++
                [{ method := "DELETE", url := "/api/delete/" ++ toString n,
                   contentType := none, body := none }]
            ∧ (deleteScan (.num n) true (.body data) st).historyList = st.historyList
            ∧ (deleteScan (.num n) true (.body data) st).alerts
                = st.alerts ++ ["Error deleting scan: " ++ (data.prop "error").toStr])
      ∧ (∀ e, (deleteScan (.num n) true (.rejected e) st).requests
              = st.requests ++
                [{ method := "DELETE", url := "/api/delete/" ++ toString n,
                   contentType := none, body := none }]
            ∧ (deleteScan (.num n) true (.rejected e) st).historyList = st.historyList
            ∧ (deleteScan (.num n) true (.rejected e) st).alerts
                = st.alerts ++ ["Network error: " ++ e.message])
      ∧ (∀ e, (deleteScan (.num n) true (.unparsable e) st).requests
              = st.requests ++
                [{ method := "DELETE", url := "/api/delete/" ++ toString n,
                   contentType := none, body := none }]
            ∧ (deleteScan (.num n) true (.unparsable e) st).historyList = st.historyList
            ∧ (deleteScan (.num n) true (.unparsable e) st).alerts
                = st.alerts ++ ["Network error: " ++ e.message]) := by
  refine ⟨fun o => rfl, ?_, ?_, fun e => ⟨rfl, rfl, rfl⟩, fun e => ⟨rfl, rfl, rfl⟩⟩
  · intro data success hs ht
    refine ⟨?_, ?_, ?_⟩
    · simp [deleteScan, deleteScanStart, deleteScanSettle, deleteScanTry, hs, ht,
        catchNetworkError, loadHistoryStart, fetch, deleteRequest, historyRequest, JVal.toStr]
    · simp [deleteScan, deleteScanStart, deleteScanSettle, deleteScanTry, hs, ht,
        catchNetworkError, loadHistoryStart, fetch]
    · intro o2
      obtain ⟨list, hl⟩ := loadHistorySettle_shape o2 (deleteScan (.num n) true (.body data) st)
      rw [hl]
  · intro data success hs ht
    simp [deleteScan, deleteScanStart, deleteScanSettle, deleteScanTry, hs, ht,
      catchNetworkError, alert, fetch, deleteRequest, JVal.toStr]

/-- Witness for C6: deleting scan 7 from the idle page. -/
theorem deleteScan_effects_witness :
    isSafeInteger 7 = true
      ∧ deleteScan (.num 7) false (.body (.obj [("success", .bool true)])) idlePage = idlePage
      ∧ (deleteScan (.num 7) true (.body (.obj [("success", .bool true)])) idlePage).requests
        = [{ method := "DELETE", url := "/api/delete/7", contentType := none, body := none },
           { method := "GET", url := "/api/history", contentType := none, body := none }]
      ∧ (deleteScan (.num 7) true
          (.body (.obj [("success", .bool false), ("error", .str "no such scan")]))
          idlePage).alerts = ["Error deleting scan: no such scan"] :=
  ⟨by decide,
   (deleteScan_effects 7 (by decide) idlePage).1 _,
   ((deleteScan_effects 7 (by decide) idlePage).2.1 (.obj [("success", .bool true)]) (.bool true)
      rfl rfl).1,
   ((deleteScan_effects 7 (by decide) idlePage).2.2.1
      (.obj [("success", .bool false), ("error", .str "no such scan")]) (.bool false)
      rfl rfl).2.2⟩

/-! ## One scan at a time -/

theorem step_guarded (s : Sys) (ev : Event) (h : s.Guarded) : (step s ev).Guarded := by
  obtain ⟨h1, h2⟩ := h
  have hcl : (dispatchClick s).Guarded := by
    unfold dispatchClick
    by_cases hd : s.page.btnDisabled = true
    · simp only [hd, if_true]
      exact ⟨h1, h2⟩
    · have h0 : s.inFlight = 0 := by
        by_contra hne
        have h3 : s.inFlight = 1 := by omega
        exact hd (h2.mp h3)
      simp [hd, Sys.Guarded, h0, scanClickStart, fetch]
  cases ev with
  | click => exact hcl
  | keypress key =>
    simp only [step]
    by_cases hk : key = "Enter"
    · simpa [hk] using hcl
    · simp only [hk, if_false]
      exact ⟨h1, h2⟩
  | input value =>
    exact ⟨h1, h2⟩
  | settle o =>
    simp only [step]
    by_cases h0 : s.inFlight = 0
    · simp only [h0, if_true]
      exact ⟨h1, h2⟩
    · have : s.inFlight = 1 := by omega
      simp [this, Sys.Guarded, scanClickSettle, scanFinally]

theorem run_guarded (s : Sys) (evs : List Event) (h : s.Guarded) : (run s evs).Guarded := by
  induction evs generalizing s with
  | nil => exact h
  | cons ev rest ih => exact ih (step s ev) (step_guarded s ev h)

/-- C2. Starting from a state with the button enabled and no request in
flight, after any sequence of clicks, key presses, edits of the input and
settlements, at most one scan request is in flight; while one is in flight, a
click or a key press (Enter included) changes nothing at all: the page, the
log of requests and the number of requests in flight stay as they are; and
when none is in flight the button is enabled again. -/
theorem one_scan_in_flight (s0 : Sys) (evs : List Event)
    (hb : s0.page.btnDisabled = false) (h0 : s0.inFlight = 0) :
    (run s0 evs).inFlight ≤ 1
      ∧ ((run s0 evs).inFlight = 1 →
          step (run s0 evs) .click = run s0 evs
          ∧ ∀ key, step (run s0 evs) (.keypress key) = run s0 evs)
      ∧ ((run s0 evs).inFlight = 0 → (run s0 evs).page.btnDisabled = false) := by
  have hg : (run s0 evs).Guarded := run_guarded s0 evs (by simp [Sys.Guarded, h0, hb])
  refine ⟨hg.1, fun h1 => ?_, fun h1 => ?_⟩
  · have hd := hg.2.mp h1
    refine ⟨by simp [step, dispatchClick, hd], fun key => ?_⟩
    by_cases hk : key = "Enter" <;> simp [step, dispatchClick, hd, hk]
  · cases hd : (run s0 evs).page.btnDisabled with
    | false => rfl
    | true =>
      have := hg.2.mpr hd
      omega

/-- Witness for C2: a click, then Enter and a second click while the request
is in flight, leave one request in flight and one request in the log; once
the request has settled a click issues the next one. -/
theorem one_scan_in_flight_witness :
    (run { page := idlePage, inFlight := 0 } [.click, .keypress "Enter", .click]).inFlight ≤ 1
      ∧ (run { page := idlePage, inFlight := 0 }
          [.click, .keypress "Enter", .click]).inFlight = 1
      ∧ (run { page := idlePage, inFlight := 0 }
          [.click, .keypress "Enter", .click]).page.requests.length = 1
      ∧ (run { page := idlePage, inFlight := 0 }
          [.click, .keypress "Enter", .click, .settle (.body sampleResult),
           .click]).page.requests.length = 2 :=
  ⟨(one_scan_in_flight { page := idlePage, inFlight := 0 }
      [.click, .keypress "Enter", .click] rfl rfl).1, by decide, by decide, by decide⟩

end NetScan
